import Mathlib

/-!
node-gumbo: projection of a gumbo parse tree into a DOM-like object tree

A shallow embedding of `src/node-gumbo.cc`.

* V8 values are the inductive `JsValue`; an object is its ordered property
  list, `obj->Set(key, v)` overwrites an existing property in place and
  appends a new one otherwise.
* The only V8 state the file touches is the isolate's scheduled exception
  (`ThrowException` schedules an exception and returns `Undefined()`; the C++
  code that called it keeps running).  It is threaded explicitly.
* The gumbo library (`deps/gumbo-parser`) is outside `src/`: its tag table,
  its default options and its parser are fields of the record `Gumbo`.
-/

namespace NodeGumbo

/-! ## V8 values -/

/-- A value held by a V8 handle.  `empty` is a handle that was declared and
never assigned (`Local<String> name;`).  JavaScript numbers are restricted to
the integral ones, which is all this file ever creates or reads. -/
inductive JsValue where
  | empty
  | undefined
  | boolean (b : Bool)
  | number (n : Int)
  | string (s : String)
  | typeError (message : String)
  | object (props : List (String × JsValue))
  | array (elems : List JsValue)

/-- The property list of a JavaScript object, in insertion order. -/
abbrev JsObject := List (String × JsValue)

/-- `Object::New()`. -/
def JsObject.New : JsObject := []

/-- `obj->Set(key, value)`: overwrite the property when it exists, append it
otherwise. -/
def JsObject.Set : JsObject → String → JsValue → JsObject
  | [], key, value => [(key, value)]
  | (k, v) :: rest, key, value =>
    if k = key then (k, value) :: rest else (k, v) :: JsObject.Set rest key value

/-- `obj->Get(key)`: the value of the property, `undefined` when there is
none. -/
def JsObject.Get : JsObject → String → JsValue
  | [], _ => JsValue.undefined
  | (k, v) :: rest, key => if k = key then v else JsObject.Get rest key

/-- Whether the object has an own property `key` (whatever its value). -/
def JsObject.Has : JsObject → String → Bool
  | [], _ => false
  | (k, _) :: rest, key => if k = key then true else JsObject.Has rest key

/-- `Array::New(length)`: an array of `length` slots, each reading as
`undefined`. -/
def JsArray.New (length : Nat) : List JsValue :=
  List.replicate length JsValue.undefined

/-- `arr->Set(i, value)`: store at index `i`, growing the array when `i` is
past its end. -/
def JsArray.Set (arr : List JsValue) (i : Nat) (value : JsValue) : List JsValue :=
  if i < arr.length then arr.set i value
  else arr ++ List.replicate (i - arr.length) JsValue.undefined ++ [value]

/-- The part of the V8 isolate this file writes: the exception scheduled to be
thrown when control returns to JavaScript. -/
structure Isolate where
  scheduled_exception : Option JsValue

/-- `ThrowException(exception)`: schedule the exception (replacing an earlier
one) and return `Undefined()`. -/
def ThrowException (exception : JsValue) (_iso : Isolate) : JsValue × Isolate :=
  (JsValue.undefined, { scheduled_exception := some exception })

/-! ## The gumbo parse tree (`gumbo.h`) -/

/-- `GumboSourcePosition`: three `unsigned int` fields. -/
structure GumboSourcePosition where
  line : Nat
  column : Nat
  offset : Nat
  deriving DecidableEq, Repr

/-- `GumboAttribute`, the fields `read_attribute` reads. -/
structure GumboAttribute where
  name : String
  value : String
  name_start : GumboSourcePosition
  name_end : GumboSourcePosition
  value_start : GumboSourcePosition
  value_end : GumboSourcePosition
  deriving DecidableEq, Repr

/-- `GumboNamespaceEnum`.  `other raw` stands for any raw value of the C enum
that is none of the three named ones. -/
inductive GumboNamespaceEnum where
  | GUMBO_NAMESPACE_HTML
  | GUMBO_NAMESPACE_SVG
  | GUMBO_NAMESPACE_MATHML
  | other (raw : Nat)
  deriving DecidableEq, Repr

/-- `GumboTag`: the raw tag identifier, an index into gumbo's tag table. -/
abbrev GumboTag := Nat

/-- `GumboText`, the fields read here. -/
structure GumboText where
  text : String
  start_pos : GumboSourcePosition
  deriving DecidableEq, Repr

/-- The values of `GumboNodeType` whose payload is the `text` member of the
node's union (`gumbo.h`: document for `GUMBO_NODE_DOCUMENT`, element for
`GUMBO_NODE_ELEMENT`, text for everything else).  `other raw` stands for any
raw value of the C enum that is none of the six named kinds. -/
inductive GumboTextNodeType where
  | GUMBO_NODE_TEXT
  | GUMBO_NODE_CDATA
  | GUMBO_NODE_COMMENT
  | GUMBO_NODE_WHITESPACE
  | other (raw : Nat)
  deriving DecidableEq, Repr

mutual
/-- `GumboNode`: the type tag together with the union member it selects. -/
inductive GumboNode where
  | document (v : GumboDocument)
  | element (v : GumboElement)
  | text (type : GumboTextNodeType) (v : GumboText)
/-- `GumboDocument`. -/
inductive GumboDocument where
  | mk (children : List GumboNode) (has_doctype : Bool)
      (name public_identifier system_identifier : String)
/-- `GumboElement`. -/
inductive GumboElement where
  | mk (children : List GumboNode) (tag : GumboTag)
      (tag_namespace : GumboNamespaceEnum)
      (original_tag original_end_tag : String)
      (start_pos end_pos : GumboSourcePosition)
      (attributes : List GumboAttribute)
end

/-- Field `children` of a `GumboDocument`. -/
def GumboDocument.children : GumboDocument → List GumboNode
  | .mk c _ _ _ _ => c

/-- Field `has_doctype`. -/
def GumboDocument.has_doctype : GumboDocument → Bool
  | .mk _ h _ _ _ => h

/-- Field `name`. -/
def GumboDocument.name : GumboDocument → String
  | .mk _ _ n _ _ => n

/-- Field `public_identifier`. -/
def GumboDocument.public_identifier : GumboDocument → String
  | .mk _ _ _ p _ => p

/-- Field `system_identifier`. -/
def GumboDocument.system_identifier : GumboDocument → String
  | .mk _ _ _ _ s => s

/-- Field `children` of a `GumboElement`. -/
def GumboElement.children : GumboElement → List GumboNode
  | .mk c _ _ _ _ _ _ _ => c

/-- Field `tag`. -/
def GumboElement.tag : GumboElement → GumboTag
  | .mk _ t _ _ _ _ _ _ => t

/-- Field `tag_namespace`. -/
def GumboElement.tag_namespace : GumboElement → GumboNamespaceEnum
  | .mk _ _ n _ _ _ _ _ => n

/-- Field `original_tag`. -/
def GumboElement.original_tag : GumboElement → String
  | .mk _ _ _ o _ _ _ _ => o

/-- Field `original_end_tag`. -/
def GumboElement.original_end_tag : GumboElement → String
  | .mk _ _ _ _ o _ _ _ => o

/-- Field `start_pos`. -/
def GumboElement.start_pos : GumboElement → GumboSourcePosition
  | .mk _ _ _ _ _ p _ _ => p

/-- Field `end_pos`. -/
def GumboElement.end_pos : GumboElement → GumboSourcePosition
  | .mk _ _ _ _ _ _ p _ => p

/-- Field `attributes`. -/
def GumboElement.attributes : GumboElement → List GumboAttribute
  | .mk _ _ _ _ _ _ _ a => a

/-- `GumboOptions`, its data fields. -/
structure GumboOptions where
  tab_stop : Int
  stop_on_first_error : Bool
  max_errors : Int
  deriving DecidableEq, Repr

/-- `GumboOutput`: the raw tree handed back by the parser, reached through its
`document` node. -/
structure GumboOutput where
  document : GumboNode

/-- The gumbo library as this file uses it: the tag table behind
`gumbo_normalized_tagname`, the constant `kGumboDefaultOptions` and the parser
`gumbo_parse_with_options`. -/
structure Gumbo where
  gumbo_normalized_tagname : GumboTag → String
  kGumboDefaultOptions : GumboOptions
  gumbo_parse_with_options : GumboOptions → String → GumboOutput

/-- Modelled from the spec: `gumbo_tag_from_original_text` lives in
`deps/gumbo-parser`, outside the sources.  The spec's CustomTagResolver: "the
sequence of characters following the leading `<` up to the first whitespace,
`/`, or `>`". -/
def gumbo_tag_from_original_text (text : String) : String :=
  String.mk ((text.data.drop 1).takeWhile
    (fun c => !(c.isWhitespace || c == '/' || c == '>')))

/-! ## The projection (`node-gumbo.cc`) -/

/-- `record_location(node, pos, name)`. -/
def record_location (node : JsObject) (pos : GumboSourcePosition) (name : String) :
    JsObject :=
  let position := JsObject.New
  let position := position.Set "line" (JsValue.number pos.line)
  let position := position.Set "column" (JsValue.number pos.column)
  let position := position.Set "offset" (JsValue.number pos.offset)
  node.Set name (JsValue.object position)

/-- `read_attribute(attr)`. -/
def read_attribute (attr : GumboAttribute) : JsObject :=
  let obj := JsObject.New
  let obj := obj.Set "nodeType" (JsValue.number 2)
  let obj := obj.Set "name" (JsValue.string attr.name)
  let obj := obj.Set "value" (JsValue.string attr.value)
  let obj := record_location obj attr.name_start "nameStart"
  let obj := record_location obj attr.name_end "nameEnd"
  let obj := record_location obj attr.value_start "valueStart"
  let obj := record_location obj attr.value_end "valueEnd"
  obj

/-- `get_tag_namespace(tag_namespace)`. -/
def get_tag_namespace (tag_namespace : GumboNamespaceEnum) (iso : Isolate) :
    JsValue × Isolate :=
  match tag_namespace with
  | .GUMBO_NAMESPACE_HTML => (JsValue.string "HTML", iso)
  | .GUMBO_NAMESPACE_SVG => (JsValue.string "SVG", iso)
  | .GUMBO_NAMESPACE_MATHML => (JsValue.string "MATHML", iso)
  | .other _ => ThrowException (JsValue.typeError "Unknown tag namespace") iso

/-- `read_text(node)`, on the node's `type` and its `v.text`.  The CDATA case
has no `break` and runs into `default: break;`. -/
def read_text (type : GumboTextNodeType) (text : GumboText) : JsObject :=
  let obj := JsObject.New
  let type_ := JsValue.number 3
  let name :=
    match type with
    | .GUMBO_NODE_TEXT => JsValue.string "#text"
    | .GUMBO_NODE_WHITESPACE => JsValue.string "#text"
    | .GUMBO_NODE_CDATA => JsValue.string "#cdata-section"
    | _ => JsValue.empty
  let obj := obj.Set "nodeType" type_
  let obj := obj.Set "nodeName" name
  let obj := obj.Set "textContent" (JsValue.string text.text)
  let obj := record_location obj text.start_pos "startPos"
  obj

/-- `read_comment(node)`, on the node's `v.text`. -/
def read_comment (text : GumboText) : JsObject :=
  let obj := JsObject.New
  let obj := obj.Set "nodeType" (JsValue.number 8)
  let obj := obj.Set "nodeName" (JsValue.string "#comment")
  let obj := obj.Set "textContent" (JsValue.string text.text)
  let obj := obj.Set "nodeValue" (JsValue.string text.text)
  obj

/-- The attribute loop of `read_element`:
`for (i; i < attributes->length; ++i) attrs->Set(i, read_attribute(attributes->data[i]))`,
on the attributes from index `i` on. -/
def read_attributes_loop : List GumboAttribute → Nat → List JsValue → List JsValue
  | [], _, attrs => attrs
  | a :: rest, i, attrs =>
    read_attributes_loop rest (i + 1) (JsArray.Set attrs i (JsValue.object (read_attribute a)))

mutual
/-- `recursive_search(node)`: the switch on `node->type`, and `Object::New()`
for a type none of its cases names. -/
def recursive_search (lib : Gumbo) : GumboNode → Isolate → JsObject × Isolate
  | .text .GUMBO_NODE_TEXT v, iso => (read_text .GUMBO_NODE_TEXT v, iso)
  | .text .GUMBO_NODE_WHITESPACE v, iso => (read_text .GUMBO_NODE_WHITESPACE v, iso)
  | .text .GUMBO_NODE_CDATA v, iso => (read_text .GUMBO_NODE_CDATA v, iso)
  | .document v, iso => read_document lib v iso
  | .text .GUMBO_NODE_COMMENT v, iso => (read_comment v, iso)
  | .element v, iso => read_element lib v iso
  | .text (.other _) _, iso => (JsObject.New, iso)
/-- `read_element(node)`, on the node's `v.element`. -/
def read_element (lib : Gumbo) : GumboElement → Isolate → JsObject × Isolate
  | .mk children tag tag_namespace original_tag original_end_tag start_pos end_pos
      attributes, iso =>
    let obj := JsObject.New
    let tag := lib.gumbo_normalized_tagname tag
    let obj := obj.Set "originalTag" (JsValue.string original_tag)
    let obj := obj.Set "originalEndTag" (JsValue.string original_end_tag)
    let tag := if tag.length = 0 then gumbo_tag_from_original_text original_tag else tag
    let obj := obj.Set "nodeType" (JsValue.number 1)
    let obj := obj.Set "nodeName" (JsValue.string tag)
    let obj := obj.Set "tagName" (JsValue.string tag)
    let ns := get_tag_namespace tag_namespace iso
    let obj := obj.Set "tagNamespace" ns.1
    let obj := obj.Set "originalTag" (JsValue.string original_tag)
    let obj := obj.Set "originalEndTag" (JsValue.string original_end_tag)
    let childNodes := JsArray.New children.length
    let r :=
      if children.length > 0 then read_children_loop lib children 0 childNodes ns.2
      else (childNodes, ns.2)
    let obj := obj.Set "childNodes" (JsValue.array r.1)
    let attrs := JsArray.New attributes.length
    let attrs :=
      if attributes.length > 0 then read_attributes_loop attributes 0 attrs else attrs
    let obj := obj.Set "attributes" (JsValue.array attrs)
    let obj :=
      if original_tag.length = 0 then obj.Set "startPos" JsValue.undefined
      else record_location (record_location obj start_pos "startPos") end_pos "endPos"
    (obj, r.2)
/-- `read_document(node)`, on the node's `v.document`. -/
def read_document (lib : Gumbo) : GumboDocument → Isolate → JsObject × Isolate
  | .mk children has_doctype name public_identifier system_identifier, iso =>
    let obj := JsObject.New
    let obj := obj.Set "nodeType" (JsValue.number 9)
    let obj := obj.Set "nodeName" (JsValue.string "#document")
    let obj := obj.Set "hasDoctype" (JsValue.boolean has_doctype)
    let obj := obj.Set "name" (JsValue.string name)
    let obj := obj.Set "publicIdentifier" (JsValue.string public_identifier)
    let obj := obj.Set "systemIdentifier" (JsValue.string system_identifier)
    let childNodes := JsArray.New children.length
    let r :=
      if children.length > 0 then read_children_loop lib children 0 childNodes iso
      else (childNodes, iso)
    let obj := obj.Set "childNodes" (JsValue.array r.1)
    (obj, r.2)
/-- The child loop of `read_element` and `read_document`:
`for (i; i < children->length; ++i) childNodes->Set(i, recursive_search(children->data[i]))`,
on the children from index `i` on. -/
def read_children_loop (lib : Gumbo) :
    List GumboNode → Nat → List JsValue → Isolate → List JsValue × Isolate
  | [], _, childNodes, iso => (childNodes, iso)
  | c :: rest, i, childNodes, iso =>
    let r := recursive_search lib c iso
    read_children_loop lib rest (i + 1) (JsArray.Set childNodes i (JsValue.object r.1)) r.2
end

/-! ## The entry point -/

/-- What the entry point does with the raw tree, in program order. -/
inductive GumboCall where
  | gumbo_parse_with_options (options : GumboOptions) (text : String)
  | recursive_search (output : GumboOutput)
  | gumbo_destroy_output (options : GumboOptions) (output : GumboOutput)

/-- What `Method` leaves behind: the handle it returns, the isolate, and its
calls on the raw tree in program order. -/
structure MethodResult where
  ret : JsValue
  isolate : Isolate
  calls : List GumboCall

/-- The conversion `int tab_stop = t_s->ToInteger()->Value()`: the `int64_t`
is narrowed to a 32-bit `int`. -/
def int64_to_int (n : Int) : Int :=
  (n + 2 ^ 31) % 2 ^ 32 - 2 ^ 31

/-- `Method(args)`: `args[0]` is any value, `args[1]` is cast to an object. -/
def Method (lib : Gumbo) (args0 : JsValue) (args1 : JsObject) (iso : Isolate) :
    MethodResult :=
  let config := args1
  let s_o_f := config.Get "stopOnFirstError"
  let stop_on_first_error :=
    match s_o_f with
    | .boolean b => b
    | _ => false
  let t_s := config.Get "tabStop"
  let tab_stop :=
    match t_s with
    | .number n => int64_to_int n
    | _ => 8
  let str := args0
  match str with
  | .string string =>
    let options : GumboOptions :=
      { lib.kGumboDefaultOptions with
        tab_stop := tab_stop, stop_on_first_error := stop_on_first_error }
    let output := lib.gumbo_parse_with_options options string
    let ret := JsObject.New
    let doc := recursive_search lib output.document iso
    let ret := ret.Set "document" (JsValue.object doc.1)
    { ret := JsValue.object ret
      isolate := doc.2
      calls := [GumboCall.gumbo_parse_with_options options string,
                GumboCall.recursive_search output,
                GumboCall.gumbo_destroy_output options output] }
  | _ =>
    let r := ThrowException (JsValue.string "The first argument needs to be a string") iso
    { ret := r.1, isolate := r.2, calls := [] }

/-- What the JavaScript caller of the exported function sees. -/
inductive CallOutcome where
  | returned (value : JsValue)
  | threw (exception : JsValue)

/-- A call of the exported `gumbo` function from JavaScript: `Method` runs on an
isolate with nothing scheduled; when it comes back with an exception scheduled
the call throws it and the returned handle is dropped. -/
def gumbo_call (lib : Gumbo) (args0 : JsValue) (args1 : JsObject) : CallOutcome :=
  let r := Method lib args0 args1 { scheduled_exception := none }
  match r.isolate.scheduled_exception with
  | some exception => CallOutcome.threw exception
  | none => CallOutcome.returned r.ret


/-! ## Sample data for concrete evaluations -/

/-- A stand-in for the gumbo library in concrete evaluations: tag 0 is `html`,
tag 1 is `p`, every other tag has no canonical name, and the parser hands back
the given document node whatever the text. -/
def sample_gumbo (document : GumboNode) : Gumbo :=
  { gumbo_normalized_tagname := fun tag => if tag = 0 then "html" else if tag = 1 then "p" else ""
    kGumboDefaultOptions := { tab_stop := 8, stop_on_first_error := false, max_errors := -1 }
    gumbo_parse_with_options := fun _ _ => { document := document } }

/-- An element the parser inserted itself: no source text behind it. -/
def sample_implied_html : GumboElement :=
  GumboElement.mk [] 0 GumboNamespaceEnum.GUMBO_NAMESPACE_HTML "" ""
    { line := 0, column := 0, offset := 0 } { line := 0, column := 0, offset := 0 } []

/-- The element of `<my-widget></my-widget>`: a tag with no canonical name. -/
def sample_my_widget : GumboElement :=
  GumboElement.mk [] 150 GumboNamespaceEnum.GUMBO_NAMESPACE_HTML "<my-widget>" "</my-widget>"
    { line := 1, column := 1, offset := 0 } { line := 1, column := 12, offset := 11 } []

/-- A document whose first child is a `p` element carrying the raw namespace
value `other 7`, with one attribute and one text child, followed by a comment. -/
def sample_unknown_namespace_document : GumboNode :=
  GumboNode.document (GumboDocument.mk
    [GumboNode.element (GumboElement.mk
        [GumboNode.text GumboTextNodeType.GUMBO_NODE_TEXT
          { text := "x", start_pos := { line := 1, column := 10, offset := 9 } }]
        1 (GumboNamespaceEnum.other 7) "<p a=\"1\">" "</p>"
        { line := 1, column := 1, offset := 0 } { line := 1, column := 11, offset := 10 }
        [{ name := "a", value := "1"
           name_start := { line := 1, column := 4, offset := 3 }
           name_end := { line := 1, column := 5, offset := 4 }
           value_start := { line := 1, column := 6, offset := 5 }
           value_end := { line := 1, column := 9, offset := 8 } }]),
     GumboNode.text GumboTextNodeType.GUMBO_NODE_COMMENT
       { text := " later ", start_pos := { line := 1, column := 15, offset := 14 } }]
    false "" "" "")

/-! ## Trees with an out-of-range namespace -/

mutual
/-- Whether the tree holds, at any depth, an element whose raw namespace is none
of HTML, SVG, MATHML. -/
def GumboNode.has_unknown_namespace : GumboNode → Bool
  | .document (.mk children _ _ _ _) => has_unknown_namespace_among children
  | .element (.mk children _ tag_namespace _ _ _ _ _) =>
    (match tag_namespace with
      | .other _ => true
      | _ => false) || has_unknown_namespace_among children
  | .text _ _ => false
/-- Whether one of the nodes holds such an element. -/
def has_unknown_namespace_among : List GumboNode → Bool
  | [] => false
  | c :: rest => c.has_unknown_namespace || has_unknown_namespace_among rest
end

/-! ## Shape of raw and projected trees -/

/-- The children of a raw node: those of a document or an element; a node whose
payload is `text` has none. -/
def GumboNode.children : GumboNode → List GumboNode
  | .document v => v.children
  | .element v => v.children
  | .text _ _ => []

/-- The raw node reached by following child indices down from a node. -/
def GumboNode.descendant : GumboNode → List Nat → Option GumboNode
  | n, [] => some n
  | n, i :: path =>
    match n.children[i]? with
    | some c => c.descendant path
    | none => none

mutual
/-- Number of nodes of a raw tree. -/
def GumboNode.node_count : GumboNode → Nat
  | .document (.mk children _ _ _ _) => 1 + node_count_among children
  | .element (.mk children _ _ _ _ _ _ _) => 1 + node_count_among children
  | .text _ _ => 1
/-- Number of nodes of a list of raw trees. -/
def node_count_among : List GumboNode → Nat
  | [] => 0
  | c :: rest => c.node_count + node_count_among rest
end

mutual
/-- Depth of a raw tree: 1 for a node without children. -/
def GumboNode.depth : GumboNode → Nat
  | .document (.mk children _ _ _ _) => 1 + depth_among children
  | .element (.mk children _ _ _ _ _ _ _) => 1 + depth_among children
  | .text _ _ => 1
/-- Largest depth in a list of raw trees. -/
def depth_among : List GumboNode → Nat
  | [] => 0
  | c :: rest => max c.depth (depth_among rest)
end

/-- The `childNodes` array of a projected object; empty when it has none. -/
def JsObject.childNodes (obj : JsObject) : List JsValue :=
  match obj.Get "childNodes" with
  | .array elems => elems
  | _ => []

/-- The projected node reached by following `childNodes` indices down from an
object. -/
def JsObject.descendant : JsObject → List Nat → Option JsObject
  | obj, [] => some obj
  | obj, i :: path =>
    match obj.childNodes[i]? with
    | some (.object child) => JsObject.descendant child path
    | _ => none

mutual
/-- Number of nodes of a projected tree: an object and, recursively, the
entries of its `childNodes` array. -/
def JsValue.node_count : JsValue → Nat
  | .object props => 1 + childNodes_node_count props
  | _ => 0
/-- Number of nodes below an object, given its property list. -/
def childNodes_node_count : List (String × JsValue) → Nat
  | [] => 0
  | (k, v) :: rest =>
    if k = "childNodes" then
      match v with
      | .array elems => node_count_of_all elems
      | _ => 0
    else childNodes_node_count rest
/-- Number of nodes of a list of projected trees. -/
def node_count_of_all : List JsValue → Nat
  | [] => 0
  | v :: rest => v.node_count + node_count_of_all rest
end

mutual
/-- Depth of a projected tree: 1 for an object without `childNodes` entries. -/
def JsValue.depth : JsValue → Nat
  | .object props => 1 + childNodes_depth props
  | _ => 0
/-- Largest depth below an object, given its property list. -/
def childNodes_depth : List (String × JsValue) → Nat
  | [] => 0
  | (k, v) :: rest =>
    if k = "childNodes" then
      match v with
      | .array elems => depth_of_all elems
      | _ => 0
    else childNodes_depth rest
/-- Largest depth in a list of projected trees. -/
def depth_of_all : List JsValue → Nat
  | [] => 0
  | v :: rest => max v.depth (depth_of_all rest)
end

/-- The `offset` of a projected position object, when the value is one. -/
def JsValue.position_offset : JsValue → Option Int
  | .object position =>
    match JsObject.Get position "offset" with
    | .number n => some n
    | _ => none
  | _ => none

/-- The element of a `<br>` at byte 3 of the input, with the end position on the
same token as the start position. -/
def sample_br : GumboElement :=
  GumboElement.mk [] 150 GumboNamespaceEnum.GUMBO_NAMESPACE_HTML "<br>" ""
    { line := 1, column := 4, offset := 3 } { line := 1, column := 4, offset := 3 } []

/-- A document in the HTML namespace throughout: an implied `html` element
holding a `p` element (one attribute, one text child) and a comment. -/
def sample_document : GumboNode :=
  GumboNode.document (GumboDocument.mk
    [GumboNode.element (GumboElement.mk
      [GumboNode.element (GumboElement.mk
          [GumboNode.text GumboTextNodeType.GUMBO_NODE_TEXT
            { text := "x", start_pos := { line := 1, column := 10, offset := 9 } }]
          1 GumboNamespaceEnum.GUMBO_NAMESPACE_HTML "<p a=\"1\">" "</p>"
          { line := 1, column := 1, offset := 0 } { line := 1, column := 11, offset := 10 }
          [{ name := "a", value := "1"
             name_start := { line := 1, column := 4, offset := 3 }
             name_end := { line := 1, column := 5, offset := 4 }
             value_start := { line := 1, column := 6, offset := 5 }
             value_end := { line := 1, column := 9, offset := 8 } }]),
       GumboNode.text GumboTextNodeType.GUMBO_NODE_COMMENT
         { text := " later ", start_pos := { line := 1, column := 15, offset := 14 } }]
      0 GumboNamespaceEnum.GUMBO_NAMESPACE_HTML "" ""
      { line := 0, column := 0, offset := 0 } { line := 0, column := 0, offset := 0 } [])]
    false "" "" "")

/-! ## Calls on the raw tree -/

/-- Whether the call obtains a raw tree from the parser. -/
def GumboCall.obtains_tree : GumboCall → Bool
  | .gumbo_parse_with_options _ _ => true
  | _ => false

/-- Whether the call releases a raw tree. -/
def GumboCall.releases_tree : GumboCall → Bool
  | .gumbo_destroy_output _ _ => true
  | _ => false

/-! ## Arrays filled by the two loops -/

theorem take_succ_set {α : Type} (v : α) :
    ∀ (arr : List α) (i : Nat), i < arr.length → (arr.set i v).take (i + 1) = arr.take i ++ [v]
  | [], i, h => by simp at h
  | a :: arr, 0, _ => by simp
  | a :: arr, i + 1, h => by
    have h2 : i < arr.length := by simpa using h
    simp [take_succ_set v arr i h2]

theorem drop_succ_set {α : Type} (arr : List α) (i k : Nat) (v : α) :
    (arr.set i v).drop (i + 1 + k) = arr.drop (i + 1 + k) := by
  rw [List.drop_set_of_lt v arr (by omega)]

theorem JsArray.Set_of_lt (arr : List JsValue) (i : Nat) (v : JsValue) (h : i < arr.length) :
    JsArray.Set arr i v = arr.set i v := by
  simp [JsArray.Set, h]

theorem get_tag_namespace_fst (ns : GumboNamespaceEnum) (s t : Isolate) :
    (get_tag_namespace ns s).1 = (get_tag_namespace ns t).1 := by
  cases ns <;> rfl

mutual
theorem recursive_search_fst (lib : Gumbo) :
    ∀ (n : GumboNode) (s t : Isolate), (recursive_search lib n s).1 = (recursive_search lib n t).1
  | .text .GUMBO_NODE_TEXT v, s, t => by simp [recursive_search]
  | .text .GUMBO_NODE_WHITESPACE v, s, t => by simp [recursive_search]
  | .text .GUMBO_NODE_CDATA v, s, t => by simp [recursive_search]
  | .text .GUMBO_NODE_COMMENT v, s, t => by simp [recursive_search]
  | .text (.other _) v, s, t => by simp [recursive_search]
  | .document v, s, t => by
    simp only [recursive_search]
    exact read_document_fst lib v s t
  | .element v, s, t => by
    simp only [recursive_search]
    exact read_element_fst lib v s t
theorem read_element_fst (lib : Gumbo) :
    ∀ (e : GumboElement) (s t : Isolate), (read_element lib e s).1 = (read_element lib e t).1
  | .mk children tag ns ot oet sp ep attrs, s, t => by
    simp only [read_element]
    rw [get_tag_namespace_fst ns s t]
    by_cases h : children.length > 0
    · simp only [h, if_true]
      rw [read_children_loop_fst lib children 0 _ (get_tag_namespace ns s).2 (get_tag_namespace ns t).2]
    · simp only [h, if_false]
theorem read_document_fst (lib : Gumbo) :
    ∀ (d : GumboDocument) (s t : Isolate), (read_document lib d s).1 = (read_document lib d t).1
  | .mk children hd n p sy, s, t => by
    simp only [read_document]
    by_cases h : children.length > 0
    · simp only [h, if_true]
      rw [read_children_loop_fst lib children 0 _ s t]
    · simp only [h, if_false]
theorem read_children_loop_fst (lib : Gumbo) :
    ∀ (cs : List GumboNode) (i : Nat) (arr : List JsValue) (s t : Isolate),
      (read_children_loop lib cs i arr s).1 = (read_children_loop lib cs i arr t).1
  | [], i, arr, s, t => by simp [read_children_loop]
  | c :: rest, i, arr, s, t => by
    simp only [read_children_loop]
    rw [recursive_search_fst lib c s t]
    exact read_children_loop_fst lib rest (i+1) _ _ _
end

theorem read_children_loop_values (lib : Gumbo) (t : Isolate) :
    ∀ (cs : List GumboNode) (i : Nat) (arr : List JsValue) (s : Isolate),
      i + cs.length ≤ arr.length →
      (read_children_loop lib cs i arr s).1 =
        arr.take i ++ cs.map (fun c => JsValue.object (recursive_search lib c t).1) ++
          arr.drop (i + cs.length)
  | [], i, arr, s, _ => by simp [read_children_loop]
  | c :: rest, i, arr, s, h => by
    have hi : i < arr.length := by simp at h; omega
    simp only [read_children_loop]
    rw [read_children_loop_values lib t rest (i + 1) _ _ (by simp [JsArray.Set_of_lt _ _ _ hi] at h ⊢; omega)]
    rw [JsArray.Set_of_lt _ _ _ hi, take_succ_set _ _ _ hi, drop_succ_set]
    simp [Nat.add_assoc, Nat.add_comm 1]
    exact recursive_search_fst lib c s t

theorem read_attributes_loop_values :
    ∀ (as : List GumboAttribute) (i : Nat) (arr : List JsValue),
      i + as.length ≤ arr.length →
      read_attributes_loop as i arr =
        arr.take i ++ as.map (fun a => JsValue.object (read_attribute a)) ++
          arr.drop (i + as.length)
  | [], i, arr, _ => by simp [read_attributes_loop]
  | a :: rest, i, arr, h => by
    have hi : i < arr.length := by simp at h; omega
    simp only [read_attributes_loop]
    rw [read_attributes_loop_values rest (i + 1) _ (by simp [JsArray.Set_of_lt _ _ _ hi] at h ⊢; omega)]
    rw [JsArray.Set_of_lt _ _ _ hi, take_succ_set _ _ _ hi, drop_succ_set]
    simp [Nat.add_assoc, Nat.add_comm 1]

/-- The child array built by `read_element` and `read_document`. -/
theorem childNodes_eq_map (lib : Gumbo) (children : List GumboNode) (s t : Isolate) :
    (if children.length > 0 then
        read_children_loop lib children 0 (JsArray.New children.length) s
      else (JsArray.New children.length, s)).1 =
      children.map (fun c => JsValue.object (recursive_search lib c t).1) := by
  by_cases h : children.length > 0
  · simp only [h, if_true]
    rw [read_children_loop_values lib t children 0 _ s (by simp [JsArray.New])]
    simp [JsArray.New]
  · have : children = [] := by
      cases children with
      | nil => rfl
      | cons a l => simp at h
    subst this
    simp [JsArray.New]

theorem attributes_eq_map (attributes : List GumboAttribute) :
    (if attributes.length > 0 then
        read_attributes_loop attributes 0 (JsArray.New attributes.length)
      else JsArray.New attributes.length) =
      attributes.map (fun a => JsValue.object (read_attribute a)) := by
  by_cases h : attributes.length > 0
  · simp only [h, if_true]
    rw [read_attributes_loop_values attributes 0 _ (by simp [JsArray.New])]
    simp [JsArray.New]
  · have : attributes = [] := by
      cases attributes with
      | nil => rfl
      | cons a l => simp at h
    subst this
    simp [JsArray.New]

/-- The object `read_element` builds, property by property. -/
theorem read_element_fst_eq (lib : Gumbo) (e : GumboElement) (s t : Isolate) :
    (read_element lib e s).1 =
      [("originalTag", JsValue.string e.original_tag),
       ("originalEndTag", JsValue.string e.original_end_tag),
       ("nodeType", JsValue.number 1),
       ("nodeName", JsValue.string
          (if (lib.gumbo_normalized_tagname e.tag).length = 0
           then gumbo_tag_from_original_text e.original_tag
           else lib.gumbo_normalized_tagname e.tag)),
       ("tagName", JsValue.string
          (if (lib.gumbo_normalized_tagname e.tag).length = 0
           then gumbo_tag_from_original_text e.original_tag
           else lib.gumbo_normalized_tagname e.tag)),
       ("tagNamespace", (get_tag_namespace e.tag_namespace s).1),
       ("childNodes", JsValue.array
          (e.children.map (fun c => JsValue.object (recursive_search lib c t).1))),
       ("attributes", JsValue.array
          (e.attributes.map (fun a => JsValue.object (read_attribute a))))] ++
      (if e.original_tag.length = 0 then [("startPos", JsValue.undefined)]
       else [("startPos", (record_location JsObject.New e.start_pos "startPos").Get "startPos"),
             ("endPos", (record_location JsObject.New e.end_pos "endPos").Get "endPos")]) := by
  cases e with
  | mk children tag ns ot oet sp ep attrs =>
    simp only [read_element, GumboElement.original_tag, GumboElement.original_end_tag,
      GumboElement.tag, GumboElement.tag_namespace, GumboElement.children,
      GumboElement.attributes, GumboElement.start_pos, GumboElement.end_pos]
    rw [childNodes_eq_map lib children _ t, attributes_eq_map attrs]
    by_cases h : ot.length = 0 <;>
      simp [h, JsObject.Set, JsObject.Get, JsObject.New, record_location]

theorem read_document_fst_eq (lib : Gumbo) (d : GumboDocument) (s t : Isolate) :
    (read_document lib d s).1 =
      [("nodeType", JsValue.number 9),
       ("nodeName", JsValue.string "#document"),
       ("hasDoctype", JsValue.boolean d.has_doctype),
       ("name", JsValue.string d.name),
       ("publicIdentifier", JsValue.string d.public_identifier),
       ("systemIdentifier", JsValue.string d.system_identifier),
       ("childNodes", JsValue.array
          (d.children.map (fun c => JsValue.object (recursive_search lib c t).1)))] := by
  cases d with
  | mk children hd n p sy =>
    simp only [read_document, GumboDocument.has_doctype, GumboDocument.name,
      GumboDocument.public_identifier, GumboDocument.system_identifier, GumboDocument.children]
    rw [childNodes_eq_map lib children _ t]
    simp [JsObject.Set, JsObject.New]

/-! ## The scheduled exception after a projection -/

theorem get_tag_namespace_snd (ns : GumboNamespaceEnum) (s : Isolate) :
    (get_tag_namespace ns s).2 =
      if (match ns with
          | .other _ => true
          | _ => false) = true
      then { scheduled_exception := some (JsValue.typeError "Unknown tag namespace") }
      else s := by
  cases ns <;> rfl

mutual
theorem recursive_search_snd (lib : Gumbo) :
    ∀ (n : GumboNode) (s : Isolate), (recursive_search lib n s).2 =
      if n.has_unknown_namespace = true
      then { scheduled_exception := some (JsValue.typeError "Unknown tag namespace") }
      else s
  | .text .GUMBO_NODE_TEXT v, s => by simp [recursive_search, GumboNode.has_unknown_namespace]
  | .text .GUMBO_NODE_WHITESPACE v, s => by
    simp [recursive_search, GumboNode.has_unknown_namespace]
  | .text .GUMBO_NODE_CDATA v, s => by simp [recursive_search, GumboNode.has_unknown_namespace]
  | .text .GUMBO_NODE_COMMENT v, s => by
    simp [recursive_search, GumboNode.has_unknown_namespace]
  | .text (.other _) v, s => by simp [recursive_search, GumboNode.has_unknown_namespace]
  | .document (.mk children hd n p sy), s => by
    simp only [recursive_search, read_document, GumboNode.has_unknown_namespace]
    cases children with
    | nil => simp [has_unknown_namespace_among]
    | cons c rest =>
      simp only [List.length_cons, gt_iff_lt, Nat.zero_lt_succ, if_true]
      exact read_children_loop_snd lib (c :: rest) 0 _ s
  | .element (.mk children tag ns ot oet sp ep attrs), s => by
    simp only [recursive_search, read_element, GumboNode.has_unknown_namespace]
    cases children with
    | nil =>
      simp only [List.length_nil, gt_iff_lt, Nat.lt_irrefl, if_false,
        has_unknown_namespace_among, Bool.or_false]
      exact get_tag_namespace_snd ns s
    | cons c rest =>
      simp only [List.length_cons, gt_iff_lt, Nat.zero_lt_succ, if_true]
      rw [read_children_loop_snd lib (c :: rest) 0 _ _, get_tag_namespace_snd ns s]
      cases ns <;> simp
theorem read_children_loop_snd (lib : Gumbo) :
    ∀ (cs : List GumboNode) (i : Nat) (arr : List JsValue) (s : Isolate),
      (read_children_loop lib cs i arr s).2 =
        if has_unknown_namespace_among cs = true
        then { scheduled_exception := some (JsValue.typeError "Unknown tag namespace") }
        else s
  | [], i, arr, s => by simp [read_children_loop, has_unknown_namespace_among]
  | c :: rest, i, arr, s => by
    simp only [read_children_loop, has_unknown_namespace_among]
    rw [read_children_loop_snd lib rest (i + 1) _ _, recursive_search_snd lib c s]
    by_cases h1 : c.has_unknown_namespace = true <;>
      by_cases h2 : has_unknown_namespace_among rest = true <;> simp [h1, h2]
end

/-! ## Properties of objects and of the option conversion -/

theorem Get_Set_same : ∀ (obj : JsObject) (key : String) (value : JsValue),
    (obj.Set key value).Get key = value
  | [], key, value => by simp [JsObject.Set, JsObject.Get]
  | (k, v) :: rest, key, value => by
    by_cases hk : k = key
    · simp [JsObject.Set, JsObject.Get, hk]
    · simp only [JsObject.Set, hk, if_false, JsObject.Get]
      exact Get_Set_same rest key value

theorem Get_of_Has_false : ∀ (obj : JsObject) (key : String),
    obj.Has key = false → obj.Get key = JsValue.undefined
  | [], _, _ => rfl
  | (k, v) :: rest, key, h => by
    by_cases hk : k = key
    · simp [JsObject.Has, hk] at h
    · simp only [JsObject.Has, hk, if_false] at h
      simp only [JsObject.Get, hk, if_false]
      exact Get_of_Has_false rest key h

theorem int64_to_int_of_range (n : Int) (h1 : -2 ^ 31 ≤ n) (h2 : n < 2 ^ 31) :
    int64_to_int n = n := by
  unfold int64_to_int
  have : (n + 2 ^ 31) % 2 ^ 32 = n + 2 ^ 31 := Int.emod_eq_of_lt (by omega) (by omega)
  omega

theorem getElem?_map_append_cons {α β : Type} (f : α → β) (x : α) (after : List α) :
    ∀ before : List α, ((before ++ x :: after).map f)[before.length]? = some (f x)
  | [] => by simp
  | _ :: before => by simpa using getElem?_map_append_cons f x after before

/-! ## The projected tree follows the raw tree -/

theorem projection_childNodes (lib : Gumbo) (n : GumboNode) (iso t : Isolate) :
    (recursive_search lib n iso).1.childNodes =
      n.children.map (fun c => JsValue.object (recursive_search lib c t).1) := by
  cases n with
  | document v =>
    simp only [recursive_search, JsObject.childNodes, GumboNode.children]
    rw [read_document_fst_eq lib v iso t]
    simp [JsObject.Get]
  | element v =>
    simp only [recursive_search, JsObject.childNodes, GumboNode.children]
    rw [read_element_fst_eq lib v iso t]
    simp [JsObject.Get]
  | text type v =>
    cases type <;>
      simp [recursive_search, JsObject.childNodes, GumboNode.children, read_text, read_comment,
        record_location, JsObject.Set, JsObject.Get, JsObject.New]

theorem descendant_projection (lib : Gumbo) (t : Isolate) :
    ∀ (path : List Nat) (n : GumboNode) (iso : Isolate),
      (recursive_search lib n iso).1.descendant path =
        (n.descendant path).map (fun m => (recursive_search lib m t).1)
  | [], n, iso => by
    simp [JsObject.descendant, GumboNode.descendant, recursive_search_fst lib n iso t]
  | i :: path, n, iso => by
    simp only [JsObject.descendant, GumboNode.descendant]
    rw [projection_childNodes lib n iso t]
    cases h : n.children[i]? with
    | none => simp [h]
    | some c =>
      simp only [List.getElem?_map, h, Option.map_some']
      exact descendant_projection lib t path c t

/-! ## Node count and depth of a projection -/

theorem childNodes_node_count_eq (props : JsObject) :
    childNodes_node_count props = node_count_of_all (JsObject.childNodes props) := by
  induction props with
  | nil => rfl
  | cons p rest ih =>
    obtain ⟨k, v⟩ := p
    simp only [JsObject.childNodes] at ih
    by_cases hk : k = "childNodes" <;> cases v <;>
      simp [childNodes_node_count, JsObject.childNodes, JsObject.Get, node_count_of_all, hk, ih]

theorem childNodes_depth_eq (props : JsObject) :
    childNodes_depth props = depth_of_all (JsObject.childNodes props) := by
  induction props with
  | nil => rfl
  | cons p rest ih =>
    obtain ⟨k, v⟩ := p
    simp only [JsObject.childNodes] at ih
    by_cases hk : k = "childNodes" <;> cases v <;>
      simp [childNodes_depth, JsObject.childNodes, JsObject.Get, depth_of_all, hk, ih]
theorem node_count_of_projection_eq (lib : Gumbo) (n : GumboNode) (iso t : Isolate) :
    (JsValue.object (recursive_search lib n iso).1).node_count =
      1 + node_count_of_all
        (n.children.map (fun c => JsValue.object (recursive_search lib c t).1)) := by
  simp only [JsValue.node_count]
  rw [childNodes_node_count_eq, projection_childNodes lib n iso t]

theorem depth_of_projection_eq (lib : Gumbo) (n : GumboNode) (iso t : Isolate) :
    (JsValue.object (recursive_search lib n iso).1).depth =
      1 + depth_of_all
        (n.children.map (fun c => JsValue.object (recursive_search lib c t).1)) := by
  simp only [JsValue.depth]
  rw [childNodes_depth_eq, projection_childNodes lib n iso t]

mutual
theorem node_count_projection (lib : Gumbo) (t : Isolate) :
    ∀ (n : GumboNode) (iso : Isolate),
      (JsValue.object (recursive_search lib n iso).1).node_count = n.node_count
  | .document (.mk children hd nm p sy), iso => by
    rw [node_count_of_projection_eq lib _ iso t]
    simp only [GumboNode.children, GumboDocument.children, GumboNode.node_count]
    rw [node_count_projection_among lib t children]
  | .element (.mk children tag ns ot oet sp ep attrs), iso => by
    rw [node_count_of_projection_eq lib _ iso t]
    simp only [GumboNode.children, GumboElement.children, GumboNode.node_count]
    rw [node_count_projection_among lib t children]
  | .text type v, iso => by
    rw [node_count_of_projection_eq lib _ iso t]
    simp [GumboNode.children, GumboNode.node_count, node_count_of_all]
theorem node_count_projection_among (lib : Gumbo) (t : Isolate) :
    ∀ cs : List GumboNode,
      node_count_of_all (cs.map (fun c => JsValue.object (recursive_search lib c t).1)) =
        node_count_among cs
  | [] => by simp [node_count_of_all, node_count_among]
  | c :: rest => by
    simp only [List.map_cons, node_count_of_all, node_count_among]
    rw [node_count_projection lib t c t, node_count_projection_among lib t rest]
end

mutual
theorem depth_projection (lib : Gumbo) (t : Isolate) :
    ∀ (n : GumboNode) (iso : Isolate),
      (JsValue.object (recursive_search lib n iso).1).depth = n.depth
  | .document (.mk children hd nm p sy), iso => by
    rw [depth_of_projection_eq lib _ iso t]
    simp only [GumboNode.children, GumboDocument.children, GumboNode.depth]
    rw [depth_projection_among lib t children]
  | .element (.mk children tag ns ot oet sp ep attrs), iso => by
    rw [depth_of_projection_eq lib _ iso t]
    simp only [GumboNode.children, GumboElement.children, GumboNode.depth]
    rw [depth_projection_among lib t children]
  | .text type v, iso => by
    rw [depth_of_projection_eq lib _ iso t]
    simp [GumboNode.children, GumboNode.depth, depth_of_all]
theorem depth_projection_among (lib : Gumbo) (t : Isolate) :
    ∀ cs : List GumboNode,
      depth_of_all (cs.map (fun c => JsValue.object (recursive_search lib c t).1)) =
        depth_among cs
  | [] => by simp [depth_of_all, depth_among]
  | c :: rest => by
    simp only [List.map_cons, depth_of_all, depth_among]
    rw [depth_projection lib t c t, depth_projection_among lib t rest]
end

/-! ## Claims -/

/-- C1: for every raw element node and every raw document node, the projected
`childNodes` array has the length of the raw child vector and its `i`-th entry
is `recursive_search` of the `i`-th raw child (the same object whatever the
isolate state `t` it is run in): nothing dropped, duplicated or reordered. -/
theorem children_projected_in_order (lib : Gumbo) (iso t : Isolate) :
    (∀ e : GumboElement, ∃ childNodes : List JsValue,
      (recursive_search lib (GumboNode.element e) iso).1.Get "childNodes"
        = JsValue.array childNodes ∧
      childNodes.length = e.children.length ∧
      ∀ i : Nat, childNodes[i]? =
        (e.children[i]?).map (fun c => JsValue.object (recursive_search lib c t).1)) ∧
    (∀ d : GumboDocument, ∃ childNodes : List JsValue,
      (recursive_search lib (GumboNode.document d) iso).1.Get "childNodes"
        = JsValue.array childNodes ∧
      childNodes.length = d.children.length ∧
      ∀ i : Nat, childNodes[i]? =
        (d.children[i]?).map (fun c => JsValue.object (recursive_search lib c t).1)) := by
  constructor
  · intro e
    refine ⟨e.children.map (fun c => JsValue.object (recursive_search lib c t).1), ?_, ?_, ?_⟩
    · simp only [recursive_search]
      rw [read_element_fst_eq lib e iso t]
      simp [JsObject.Get]
    · simp
    · intro i
      simp
  · intro d
    refine ⟨d.children.map (fun c => JsValue.object (recursive_search lib c t).1), ?_, ?_, ?_⟩
    · simp only [recursive_search]
      rw [read_document_fst_eq lib d iso t]
      simp [JsObject.Get]
    · simp
    · intro i
      simp

/-- C2, as stated, fails: the implied `html` element has an empty `originalTag`,
yet its projection owns a `startPos` property (holding `undefined`). -/
theorem implied_element_has_startPos :
    sample_implied_html.original_tag.length = 0 ∧
    (recursive_search (sample_gumbo (GumboNode.element sample_implied_html))
      (GumboNode.element sample_implied_html)
      { scheduled_exception := none }).1.Has "startPos" = true ∧
    (recursive_search (sample_gumbo (GumboNode.element sample_implied_html))
      (GumboNode.element sample_implied_html)
      { scheduled_exception := none }).1.Get "startPos" = JsValue.undefined :=
  ⟨rfl, rfl, rfl⟩

/-- C2, amended: when `originalTag` has length zero the projected element owns a
`startPos` property holding `undefined` and owns no `endPos` property;
otherwise it owns both, equal to what `record_location` records for the raw
`start_pos` and `end_pos`.  So `endPos` is present iff `originalTag` is
non-empty, and `startPos` is a position iff `originalTag` is non-empty. -/
theorem element_positions (lib : Gumbo) (e : GumboElement) (iso : Isolate) :
    if e.original_tag.length = 0 then
      (recursive_search lib (GumboNode.element e) iso).1.Has "startPos" = true ∧
      (recursive_search lib (GumboNode.element e) iso).1.Get "startPos" = JsValue.undefined ∧
      (recursive_search lib (GumboNode.element e) iso).1.Has "endPos" = false
    else
      (recursive_search lib (GumboNode.element e) iso).1.Has "startPos" = true ∧
      (recursive_search lib (GumboNode.element e) iso).1.Has "endPos" = true ∧
      (recursive_search lib (GumboNode.element e) iso).1.Get "startPos"
        = (record_location JsObject.New e.start_pos "startPos").Get "startPos" ∧
      (recursive_search lib (GumboNode.element e) iso).1.Get "endPos"
        = (record_location JsObject.New e.end_pos "endPos").Get "endPos" := by
  simp only [recursive_search]
  rw [read_element_fst_eq lib e iso iso]
  by_cases h : e.original_tag.length = 0
  · simp [h, JsObject.Get, JsObject.Has]
  · simp [h, JsObject.Get, JsObject.Has]

/-- C3: the projected element's `nodeName` and `tagName` are both the resolved
name: the tag-table name when it is non-empty, whatever `originalTag` is, and
otherwise `gumbo_tag_from_original_text` of `originalTag`; an element with no
tag-table name and `originalTag` `<my-widget>` gets `my-widget` for both. -/
theorem element_names_resolved :
    (∀ (lib : Gumbo) (e : GumboElement) (iso : Isolate),
      (recursive_search lib (GumboNode.element e) iso).1.Get "nodeName"
        = JsValue.string
            (if (lib.gumbo_normalized_tagname e.tag).length = 0
             then gumbo_tag_from_original_text e.original_tag
             else lib.gumbo_normalized_tagname e.tag) ∧
      (recursive_search lib (GumboNode.element e) iso).1.Get "tagName"
        = (recursive_search lib (GumboNode.element e) iso).1.Get "nodeName") ∧
    (sample_gumbo (GumboNode.element sample_my_widget)).gumbo_normalized_tagname
        sample_my_widget.tag = "" ∧
    (recursive_search (sample_gumbo (GumboNode.element sample_my_widget))
        (GumboNode.element sample_my_widget) { scheduled_exception := none }).1.Get "nodeName"
      = JsValue.string "my-widget" ∧
    (recursive_search (sample_gumbo (GumboNode.element sample_my_widget))
        (GumboNode.element sample_my_widget) { scheduled_exception := none }).1.Get "tagName"
      = JsValue.string "my-widget" := by
  refine ⟨?_, rfl, rfl, rfl⟩
  intro lib e iso
  simp only [recursive_search]
  rw [read_element_fst_eq lib e iso iso]
  simp [JsObject.Get]

/-- C4: `get_tag_namespace` yields the labels `HTML`, `SVG`, `MATHML` for the
three named namespaces, leaving the isolate as it was; for every other raw
value it schedules the TypeError `Unknown tag namespace` and yields `undefined`,
no label. -/
theorem get_tag_namespace_total (iso : Isolate) :
    get_tag_namespace GumboNamespaceEnum.GUMBO_NAMESPACE_HTML iso
      = (JsValue.string "HTML", iso) ∧
    get_tag_namespace GumboNamespaceEnum.GUMBO_NAMESPACE_SVG iso
      = (JsValue.string "SVG", iso) ∧
    get_tag_namespace GumboNamespaceEnum.GUMBO_NAMESPACE_MATHML iso
      = (JsValue.string "MATHML", iso) ∧
    ∀ raw : Nat, get_tag_namespace (GumboNamespaceEnum.other raw) iso
      = (JsValue.undefined,
         { scheduled_exception := some (JsValue.typeError "Unknown tag namespace") }) :=
  ⟨rfl, rfl, rfl, fun _ => rfl⟩

/-- C5, as stated, fails: the first child of the sample document carries the raw
namespace `other 7`; the TypeError is scheduled, and still the projection runs
on: that element gets its child, its attribute and both positions, and the
comment after it is projected too. -/
theorem projection_runs_past_unknown_namespace :
    recursive_search (sample_gumbo sample_unknown_namespace_document)
      sample_unknown_namespace_document { scheduled_exception := none } =
    ([("nodeType", JsValue.number 9),
      ("nodeName", JsValue.string "#document"),
      ("hasDoctype", JsValue.boolean false),
      ("name", JsValue.string ""),
      ("publicIdentifier", JsValue.string ""),
      ("systemIdentifier", JsValue.string ""),
      ("childNodes", JsValue.array
        [JsValue.object
          [("originalTag", JsValue.string "<p a=\"1\">"),
           ("originalEndTag", JsValue.string "</p>"),
           ("nodeType", JsValue.number 1),
           ("nodeName", JsValue.string "p"),
           ("tagName", JsValue.string "p"),
           ("tagNamespace", JsValue.undefined),
           ("childNodes", JsValue.array
             [JsValue.object
               [("nodeType", JsValue.number 3),
                ("nodeName", JsValue.string "#text"),
                ("textContent", JsValue.string "x"),
                ("startPos", JsValue.object
                  [("line", JsValue.number 1), ("column", JsValue.number 10),
                   ("offset", JsValue.number 9)])]]),
           ("attributes", JsValue.array
             [JsValue.object
               [("nodeType", JsValue.number 2),
                ("name", JsValue.string "a"),
                ("value", JsValue.string "1"),
                ("nameStart", JsValue.object
                  [("line", JsValue.number 1), ("column", JsValue.number 4),
                   ("offset", JsValue.number 3)]),
                ("nameEnd", JsValue.object
                  [("line", JsValue.number 1), ("column", JsValue.number 5),
                   ("offset", JsValue.number 4)]),
                ("valueStart", JsValue.object
                  [("line", JsValue.number 1), ("column", JsValue.number 6),
                   ("offset", JsValue.number 5)]),
                ("valueEnd", JsValue.object
                  [("line", JsValue.number 1), ("column", JsValue.number 9),
                   ("offset", JsValue.number 8)])]]),
           ("startPos", JsValue.object
             [("line", JsValue.number 1), ("column", JsValue.number 1),
              ("offset", JsValue.number 0)]),
           ("endPos", JsValue.object
             [("line", JsValue.number 1), ("column", JsValue.number 11),
              ("offset", JsValue.number 10)])],
         JsValue.object
          [("nodeType", JsValue.number 8),
           ("nodeName", JsValue.string "#comment"),
           ("textContent", JsValue.string " later "),
           ("nodeValue", JsValue.string " later ")]])],
     { scheduled_exception := some (JsValue.typeError "Unknown tag namespace") }) := by
  rfl

/-- C5, amended: when the raw tree holds, at any depth, an element whose raw
namespace is none of HTML, SVG, MATHML, projecting it leaves the TypeError
`Unknown tag namespace` scheduled, whatever was scheduled before, and a call of
the entry point whose parser hands back that tree throws this TypeError: the
caller gets no output tree.  The projection itself is not cut short: the
offending element gets `tagNamespace` `undefined` and all its children and
attributes are projected as for any other element. -/
theorem unknown_namespace_fails (lib : Gumbo) (n : GumboNode)
    (h : n.has_unknown_namespace = true) :
    (∀ iso : Isolate, (recursive_search lib n iso).2 =
      { scheduled_exception := some (JsValue.typeError "Unknown tag namespace") }) ∧
    (∀ (text : String) (args1 : JsObject),
      (∀ options, (lib.gumbo_parse_with_options options text).document = n) →
      gumbo_call lib (JsValue.string text) args1
        = CallOutcome.threw (JsValue.typeError "Unknown tag namespace")) ∧
    (∀ (children : List GumboNode) (tag : GumboTag) (raw : Nat)
        (original_tag original_end_tag : String) (start_pos end_pos : GumboSourcePosition)
        (attributes : List GumboAttribute) (iso t : Isolate),
      (recursive_search lib (GumboNode.element (GumboElement.mk children tag
          (GumboNamespaceEnum.other raw) original_tag original_end_tag start_pos end_pos
          attributes)) iso).1.Get "tagNamespace" = JsValue.undefined ∧
      (recursive_search lib (GumboNode.element (GumboElement.mk children tag
          (GumboNamespaceEnum.other raw) original_tag original_end_tag start_pos end_pos
          attributes)) iso).1.Get "childNodes"
        = JsValue.array (children.map (fun c => JsValue.object (recursive_search lib c t).1)) ∧
      (recursive_search lib (GumboNode.element (GumboElement.mk children tag
          (GumboNamespaceEnum.other raw) original_tag original_end_tag start_pos end_pos
          attributes)) iso).1.Get "attributes"
        = JsValue.array (attributes.map (fun a => JsValue.object (read_attribute a)))) := by
  refine ⟨?_, ?_, ?_⟩
  · intro iso
    rw [recursive_search_snd lib n iso, if_pos h]
  · intro text args1 hparse
    simp only [gumbo_call, Method, hparse]
    rw [recursive_search_snd lib n _, if_pos h]
  · intro children tag raw original_tag original_end_tag start_pos end_pos attributes iso t
    simp only [recursive_search]
    rw [read_element_fst_eq lib _ iso t]
    simp [JsObject.Get, get_tag_namespace, ThrowException, GumboElement.tag_namespace,
      GumboElement.children, GumboElement.attributes]

/-- The amended C5 at the sample document: the call throws the TypeError. -/
theorem unknown_namespace_fails_witness :
    sample_unknown_namespace_document.has_unknown_namespace = true ∧
    gumbo_call (sample_gumbo sample_unknown_namespace_document)
        (JsValue.string "<p a=\"1\">x</p><!-- later -->") []
      = CallOutcome.threw (JsValue.typeError "Unknown tag namespace") :=
  ⟨rfl, (unknown_namespace_fails (sample_gumbo sample_unknown_namespace_document)
    sample_unknown_namespace_document rfl).2.1 "<p a=\"1\">x</p><!-- later -->" []
      (fun _ => rfl)⟩

/-- C6: a CDATA node is projected with `nodeName` `#cdata-section` (the
assignment stands although the case runs into `default`), `nodeType` 3,
`textContent` the raw text and `startPos` what `record_location` records for
the raw start position; its `nodeName` is neither `#text` nor an unset handle. -/
theorem cdata_projection (lib : Gumbo) (v : GumboText) (iso : Isolate) :
    (recursive_search lib (GumboNode.text GumboTextNodeType.GUMBO_NODE_CDATA v) iso).1.Get
        "nodeName" = JsValue.string "#cdata-section" ∧
    (recursive_search lib (GumboNode.text GumboTextNodeType.GUMBO_NODE_CDATA v) iso).1.Get
        "nodeType" = JsValue.number 3 ∧
    (recursive_search lib (GumboNode.text GumboTextNodeType.GUMBO_NODE_CDATA v) iso).1.Get
        "textContent" = JsValue.string v.text ∧
    (recursive_search lib (GumboNode.text GumboTextNodeType.GUMBO_NODE_CDATA v) iso).1.Get
        "startPos" = (record_location JsObject.New v.start_pos "startPos").Get "startPos" ∧
    (recursive_search lib (GumboNode.text GumboTextNodeType.GUMBO_NODE_CDATA v) iso).1.Get
        "nodeName" ≠ JsValue.string "#text" ∧
    (recursive_search lib (GumboNode.text GumboTextNodeType.GUMBO_NODE_CDATA v) iso).1.Get
        "nodeName" ≠ JsValue.empty := by
  simp [recursive_search, read_text, record_location, JsObject.Set, JsObject.Get, JsObject.New]

/-- C7: a Text node and a Whitespace node are projected to an object with
exactly the properties `nodeType`, `nodeName`, `textContent`, `startPos`:
`nodeName` is `#text`, `textContent` the raw text unchanged, `startPos` what
`record_location` records for the raw start position, and there is no
`endPos`. -/
theorem text_projection (lib : Gumbo) (v : GumboText) (iso : Isolate) :
    ((recursive_search lib (GumboNode.text GumboTextNodeType.GUMBO_NODE_TEXT v) iso).1
        = [("nodeType", JsValue.number 3),
           ("nodeName", JsValue.string "#text"),
           ("textContent", JsValue.string v.text),
           ("startPos", (record_location JsObject.New v.start_pos "startPos").Get "startPos")] ∧
      (recursive_search lib (GumboNode.text GumboTextNodeType.GUMBO_NODE_TEXT v) iso).1.Has
        "endPos" = false) ∧
    ((recursive_search lib (GumboNode.text GumboTextNodeType.GUMBO_NODE_WHITESPACE v) iso).1
        = [("nodeType", JsValue.number 3),
           ("nodeName", JsValue.string "#text"),
           ("textContent", JsValue.string v.text),
           ("startPos", (record_location JsObject.New v.start_pos "startPos").Get "startPos")] ∧
      (recursive_search lib (GumboNode.text GumboTextNodeType.GUMBO_NODE_WHITESPACE v) iso).1.Has
        "endPos" = false) := by
  simp [recursive_search, read_text, record_location, JsObject.Set, JsObject.Get, JsObject.Has,
    JsObject.New]

/-- C8: a Comment node is projected to an object with exactly the properties
`nodeType` 8, `nodeName` `#comment`, `textContent` and `nodeValue`, both the raw
comment text; it has no `startPos` and no `endPos`. -/
theorem comment_projection (lib : Gumbo) (v : GumboText) (iso : Isolate) :
    (recursive_search lib (GumboNode.text GumboTextNodeType.GUMBO_NODE_COMMENT v) iso).1
      = [("nodeType", JsValue.number 8),
         ("nodeName", JsValue.string "#comment"),
         ("textContent", JsValue.string v.text),
         ("nodeValue", JsValue.string v.text)] ∧
    (recursive_search lib (GumboNode.text GumboTextNodeType.GUMBO_NODE_COMMENT v) iso).1.Get
      "textContent" =
    (recursive_search lib (GumboNode.text GumboTextNodeType.GUMBO_NODE_COMMENT v) iso).1.Get
      "nodeValue" ∧
    (recursive_search lib (GumboNode.text GumboTextNodeType.GUMBO_NODE_COMMENT v) iso).1.Has
      "startPos" = false ∧
    (recursive_search lib (GumboNode.text GumboTextNodeType.GUMBO_NODE_COMMENT v) iso).1.Has
      "endPos" = false := by
  simp [recursive_search, read_comment, JsObject.Set, JsObject.Get, JsObject.Has, JsObject.New]

/-- C9: the projected `attributes` array has the length of the raw attribute
vector and its `i`-th entry is `read_attribute` of the `i`-th raw attribute;
every projected attribute has `nodeType` 2, the raw `name` and `value`
unchanged, and `nameStart`, `nameEnd`, `valueStart`, `valueEnd` equal to what
`record_location` records for the raw `name_start`, `name_end`, `value_start`,
`value_end`, in that pairing. -/
theorem attributes_projected_in_order (lib : Gumbo) (e : GumboElement) (iso : Isolate) :
    (∃ attrs : List JsValue,
      (recursive_search lib (GumboNode.element e) iso).1.Get "attributes"
        = JsValue.array attrs ∧
      attrs.length = e.attributes.length ∧
      ∀ i : Nat, attrs[i]? =
        (e.attributes[i]?).map (fun a => JsValue.object (read_attribute a))) ∧
    (∀ a : GumboAttribute,
      (read_attribute a).Get "nodeType" = JsValue.number 2 ∧
      (read_attribute a).Get "name" = JsValue.string a.name ∧
      (read_attribute a).Get "value" = JsValue.string a.value ∧
      (read_attribute a).Get "nameStart"
        = (record_location JsObject.New a.name_start "nameStart").Get "nameStart" ∧
      (read_attribute a).Get "nameEnd"
        = (record_location JsObject.New a.name_end "nameEnd").Get "nameEnd" ∧
      (read_attribute a).Get "valueStart"
        = (record_location JsObject.New a.value_start "valueStart").Get "valueStart" ∧
      (read_attribute a).Get "valueEnd"
        = (record_location JsObject.New a.value_end "valueEnd").Get "valueEnd") := by
  constructor
  · refine ⟨e.attributes.map (fun a => JsValue.object (read_attribute a)), ?_, ?_, ?_⟩
    · simp only [recursive_search]
      rw [read_element_fst_eq lib e iso iso]
      simp [JsObject.Get]
    · simp
    · intro i
      simp
  · intro a
    simp [read_attribute, record_location, JsObject.Set, JsObject.Get, JsObject.New]

/-- C10: a document node is projected with `nodeType` 9, `hasDoctype` the raw
flag, and `name`, `publicIdentifier`, `systemIdentifier` the raw doctype strings
verbatim; when the three raw strings are empty, all three are the empty
string. -/
theorem document_projection (lib : Gumbo) (iso : Isolate) :
    (∀ d : GumboDocument,
      (recursive_search lib (GumboNode.document d) iso).1.Get "nodeType" = JsValue.number 9 ∧
      (recursive_search lib (GumboNode.document d) iso).1.Get "hasDoctype"
        = JsValue.boolean d.has_doctype ∧
      (recursive_search lib (GumboNode.document d) iso).1.Get "name"
        = JsValue.string d.name ∧
      (recursive_search lib (GumboNode.document d) iso).1.Get "publicIdentifier"
        = JsValue.string d.public_identifier ∧
      (recursive_search lib (GumboNode.document d) iso).1.Get "systemIdentifier"
        = JsValue.string d.system_identifier) ∧
    (∀ (children : List GumboNode) (has_doctype : Bool),
      (recursive_search lib
          (GumboNode.document (GumboDocument.mk children has_doctype "" "" "")) iso).1.Get
        "name" = JsValue.string "" ∧
      (recursive_search lib
          (GumboNode.document (GumboDocument.mk children has_doctype "" "" "")) iso).1.Get
        "publicIdentifier" = JsValue.string "" ∧
      (recursive_search lib
          (GumboNode.document (GumboDocument.mk children has_doctype "" "" "")) iso).1.Get
        "systemIdentifier" = JsValue.string "") := by
  constructor
  · intro d
    simp only [recursive_search]
    rw [read_document_fst_eq lib d iso iso]
    simp [JsObject.Get]
  · intro children has_doctype
    simp only [recursive_search]
    rw [read_document_fst_eq lib _ iso iso]
    simp [JsObject.Get, GumboDocument.name, GumboDocument.public_identifier,
      GumboDocument.system_identifier]

/-- C11: `recursive_search` gives `nodeType` 1 to every Element, 3 to every
Text, Whitespace and CDATA node, 8 to every Comment and 9 to every Document;
every entry of a projected element's `attributes` is `read_attribute` of a raw
attribute, an object with `nodeType` 2; and the projected node found at any depth, along any path of child indices,
is `recursive_search` of the raw node at that path, so the same holds there. -/
theorem node_types_follow_dom (lib : Gumbo) (iso t : Isolate) :
    (∀ e : GumboElement,
      (recursive_search lib (GumboNode.element e) iso).1.Get "nodeType" = JsValue.number 1) ∧
    (∀ v : GumboText,
      (recursive_search lib (GumboNode.text GumboTextNodeType.GUMBO_NODE_TEXT v) iso).1.Get
        "nodeType" = JsValue.number 3 ∧
      (recursive_search lib (GumboNode.text GumboTextNodeType.GUMBO_NODE_WHITESPACE v) iso).1.Get
        "nodeType" = JsValue.number 3 ∧
      (recursive_search lib (GumboNode.text GumboTextNodeType.GUMBO_NODE_CDATA v) iso).1.Get
        "nodeType" = JsValue.number 3 ∧
      (recursive_search lib (GumboNode.text GumboTextNodeType.GUMBO_NODE_COMMENT v) iso).1.Get
        "nodeType" = JsValue.number 8) ∧
    (∀ d : GumboDocument,
      (recursive_search lib (GumboNode.document d) iso).1.Get "nodeType" = JsValue.number 9) ∧
    (∀ e : GumboElement,
      (recursive_search lib (GumboNode.element e) iso).1.Get "attributes"
        = JsValue.array (e.attributes.map (fun a => JsValue.object (read_attribute a)))) ∧
    (∀ a : GumboAttribute, (read_attribute a).Get "nodeType" = JsValue.number 2) ∧
    (∀ (n : GumboNode) (path : List Nat),
      (recursive_search lib n iso).1.descendant path =
        (n.descendant path).map (fun m => (recursive_search lib m t).1)) := by
  refine ⟨?_, ?_, ?_, ?_, ?_, ?_⟩
  · intro e
    simp only [recursive_search]
    rw [read_element_fst_eq lib e iso iso]
    simp [JsObject.Get]
  · intro v
    simp [recursive_search, read_text, read_comment, record_location, JsObject.Set,
      JsObject.Get, JsObject.New]
  · intro d
    simp only [recursive_search]
    rw [read_document_fst_eq lib d iso iso]
    simp [JsObject.Get]
  · intro e
    simp only [recursive_search]
    rw [read_element_fst_eq lib e iso iso]
    simp [JsObject.Get]
  · intro a
    simp [read_attribute, record_location, JsObject.Set, JsObject.Get, JsObject.New]
  · intro n path
    exact descendant_projection lib t path n iso

/-- C12, as stated, fails: the first argument is a string, the parser hands
back the sample document whose `p` element carries the raw namespace `other 7`,
and the call throws the TypeError: its result is no object with a `document`
field. -/
theorem string_call_can_throw :
    gumbo_call (sample_gumbo sample_unknown_namespace_document)
        (JsValue.string "<p a=\"1\">x</p><!-- later -->") []
      = CallOutcome.threw (JsValue.typeError "Unknown tag namespace") := by
  rfl

/-- C12, amended: a call whose first argument is not a string schedules the
usage error, never calls the parser and throws, so no tree is produced; a call
whose first argument is a string calls the parser exactly once and projects the
raw document it hands back; when that tree holds no element with a namespace
outside HTML, SVG, MATHML the caller receives the object whose `document` is
that projection, and otherwise the call throws the TypeError
`Unknown tag namespace` and the caller receives no object. -/
theorem entry_point_input_contract (lib : Gumbo) (args0 : JsValue) (args1 : JsObject)
    (iso : Isolate) (h : ∀ s : String, args0 ≠ JsValue.string s) :
    ((Method lib args0 args1 iso).calls = [] ∧
      (Method lib args0 args1 iso).ret = JsValue.undefined ∧
      (Method lib args0 args1 iso).isolate.scheduled_exception
        = some (JsValue.string "The first argument needs to be a string") ∧
      gumbo_call lib args0 args1
        = CallOutcome.threw (JsValue.string "The first argument needs to be a string")) ∧
    (∀ text : String, ∃ options : GumboOptions,
      (Method lib (JsValue.string text) args1 iso).calls
        = [GumboCall.gumbo_parse_with_options options text,
           GumboCall.recursive_search (lib.gumbo_parse_with_options options text),
           GumboCall.gumbo_destroy_output options (lib.gumbo_parse_with_options options text)] ∧
      (Method lib (JsValue.string text) args1 iso).ret
        = JsValue.object [("document", JsValue.object
            (recursive_search lib (lib.gumbo_parse_with_options options text).document iso).1)] ∧
      gumbo_call lib (JsValue.string text) args1
        = if (lib.gumbo_parse_with_options options text).document.has_unknown_namespace = true
          then CallOutcome.threw (JsValue.typeError "Unknown tag namespace")
          else CallOutcome.returned (JsValue.object [("document", JsValue.object
            (recursive_search lib (lib.gumbo_parse_with_options options text).document iso).1)])) := by
  constructor
  · cases args0 <;> first
      | exact absurd rfl (h _)
      | simp [Method, gumbo_call, ThrowException]
  · intro text
    refine ⟨_, rfl, rfl, ?_⟩
    simp only [gumbo_call, Method]
    rw [recursive_search_snd lib _ _]
    split_ifs with hu
    · rfl
    · simp only [JsObject.Set, JsObject.New]
      rw [recursive_search_fst lib _ _ iso]

/-- The amended C12 at a number as first argument: the call throws the usage
error. -/
theorem entry_point_input_contract_witness :
    gumbo_call (sample_gumbo sample_document) (JsValue.number 42) []
      = CallOutcome.threw (JsValue.string "The first argument needs to be a string") :=
  (entry_point_input_contract (sample_gumbo sample_document) (JsValue.number 42) []
    { scheduled_exception := none } (fun _ hs => JsValue.noConfusion hs)).1.2.2.2

/-- C13, as stated, fails: with `tabStop` 4294967300 (2^32 + 4) supplied, the
parser is called with `tab_stop` 4. -/
theorem tab_stop_narrowed :
    (Method (sample_gumbo sample_document) (JsValue.string "<p a=\"1\">x</p>")
        [("tabStop", JsValue.number 4294967300)] { scheduled_exception := none }).calls.head?
      = some (GumboCall.gumbo_parse_with_options
          { tab_stop := 4, stop_on_first_error := false, max_errors := -1 }
          "<p a=\"1\">x</p>") := by
  rfl

/-- C13, amended: the parser is called with the default options except for
`tab_stop` and `stop_on_first_error`; `tab_stop` is 8 when the options carry no
`tabStop` and is the supplied integer when that lies in the range of a 32-bit
`int`; `stop_on_first_error` is `false` when the options carry no
`stopOnFirstError` and is the supplied boolean otherwise. -/
theorem options_forwarded (lib : Gumbo) (text : String) (args1 : JsObject) (iso : Isolate)
    (tabStop : Option Int) (stopOnFirstError : Option Bool)
    (ht : match tabStop with
      | none => args1.Has "tabStop" = false
      | some n => args1.Get "tabStop" = JsValue.number n ∧ -2 ^ 31 ≤ n ∧ n < 2 ^ 31)
    (hs : match stopOnFirstError with
      | none => args1.Has "stopOnFirstError" = false
      | some b => args1.Get "stopOnFirstError" = JsValue.boolean b) :
    (Method lib (JsValue.string text) args1 iso).calls.head?
      = some (GumboCall.gumbo_parse_with_options
          { lib.kGumboDefaultOptions with
            tab_stop := tabStop.getD 8
            stop_on_first_error := stopOnFirstError.getD false }
          text) := by
  cases tabStop with
  | none =>
    have hgt := Get_of_Has_false _ _ ht
    cases stopOnFirstError with
    | none =>
      have hgs := Get_of_Has_false _ _ hs
      simp [Method, hgt, hgs]
    | some b =>
      have hgs : args1.Get "stopOnFirstError" = JsValue.boolean b := hs
      simp [Method, hgt, hgs]
  | some n =>
    obtain ⟨hgt, hlo, hhi⟩ := ht
    have hn := int64_to_int_of_range n hlo hhi
    cases stopOnFirstError with
    | none =>
      have hgs := Get_of_Has_false _ _ hs
      simp [Method, hgt, hgs, hn]
    | some b =>
      have hgs : args1.Get "stopOnFirstError" = JsValue.boolean b := hs
      simp [Method, hgt, hgs, hn]

/-- The amended C13 with `tabStop` 4 and `stopOnFirstError` true supplied. -/
theorem options_forwarded_witness :
    (Method (sample_gumbo sample_document) (JsValue.string "<p a=\"1\">x</p>")
        [("stopOnFirstError", JsValue.boolean true), ("tabStop", JsValue.number 4)]
        { scheduled_exception := none }).calls.head?
      = some (GumboCall.gumbo_parse_with_options
          { tab_stop := 4, stop_on_first_error := true, max_errors := -1 }
          "<p a=\"1\">x</p>") :=
  options_forwarded (sample_gumbo sample_document) "<p a=\"1\">x</p>"
    [("stopOnFirstError", JsValue.boolean true), ("tabStop", JsValue.number 4)]
    { scheduled_exception := none } (some 4) (some true)
    ⟨rfl, by decide, by decide⟩ rfl

/-- C14, as stated, fails: the `<br>` element has a non-empty `originalTag` and
its projected `startPos.offset` and `endPos.offset` are both 3. -/
theorem br_offsets_not_increasing :
    sample_br.original_tag.length ≠ 0 ∧
    ((recursive_search (sample_gumbo (GumboNode.element sample_br))
        (GumboNode.element sample_br) { scheduled_exception := none }).1.Get
      "startPos").position_offset = some 3 ∧
    ((recursive_search (sample_gumbo (GumboNode.element sample_br))
        (GumboNode.element sample_br) { scheduled_exception := none }).1.Get
      "endPos").position_offset = some 3 :=
  ⟨by decide, rfl, rfl⟩

/-- C14, amended: for every projected element with non-empty `originalTag`,
`startPos.offset` and `endPos.offset` are the raw `start_pos.offset` and
`end_pos.offset` unchanged; so `startPos.offset < endPos.offset` holds exactly
when the raw offsets are in that order. -/
theorem element_offsets_copied (lib : Gumbo) (e : GumboElement) (iso : Isolate)
    (h : e.original_tag.length ≠ 0) :
    ((recursive_search lib (GumboNode.element e) iso).1.Get "startPos").position_offset
      = some (e.start_pos.offset : Int) ∧
    ((recursive_search lib (GumboNode.element e) iso).1.Get "endPos").position_offset
      = some (e.end_pos.offset : Int) ∧
    ((∃ a b : Int,
        ((recursive_search lib (GumboNode.element e) iso).1.Get "startPos").position_offset
          = some a ∧
        ((recursive_search lib (GumboNode.element e) iso).1.Get "endPos").position_offset
          = some b ∧ a < b) ↔
      e.start_pos.offset < e.end_pos.offset) := by
  have hs : ((recursive_search lib (GumboNode.element e) iso).1.Get
      "startPos").position_offset = some (e.start_pos.offset : Int) := by
    simp only [recursive_search]
    rw [read_element_fst_eq lib e iso iso]
    simp [h, JsObject.Get, JsValue.position_offset, record_location, JsObject.Set, JsObject.New]
  have he : ((recursive_search lib (GumboNode.element e) iso).1.Get
      "endPos").position_offset = some (e.end_pos.offset : Int) := by
    simp only [recursive_search]
    rw [read_element_fst_eq lib e iso iso]
    simp [h, JsObject.Get, JsValue.position_offset, record_location, JsObject.Set, JsObject.New]
  refine ⟨hs, he, ?_⟩
  rw [hs, he]
  constructor
  · rintro ⟨a, b, ha, hb, hab⟩
    simp only [Option.some.injEq] at ha hb
    omega
  · intro hlt
    exact ⟨_, _, rfl, rfl, by exact_mod_cast hlt⟩

/-- The amended C14 at the `my-widget` element: offsets 0 and 11. -/
theorem element_offsets_copied_witness :
    ((recursive_search (sample_gumbo (GumboNode.element sample_my_widget))
        (GumboNode.element sample_my_widget) { scheduled_exception := none }).1.Get
      "startPos").position_offset = some 0 ∧
    ((recursive_search (sample_gumbo (GumboNode.element sample_my_widget))
        (GumboNode.element sample_my_widget) { scheduled_exception := none }).1.Get
      "endPos").position_offset = some 11 :=
  ⟨(element_offsets_copied (sample_gumbo (GumboNode.element sample_my_widget))
      sample_my_widget { scheduled_exception := none } (by decide)).1,
   (element_offsets_copied (sample_gumbo (GumboNode.element sample_my_widget))
      sample_my_widget { scheduled_exception := none } (by decide)).2.1⟩

/-- C15: `record_location` stores under `name`, in any object, the position
object whose `line`, `column` and `offset` are the raw line, column and offset,
unshifted and unswapped; and the element `startPos` and `endPos`, the four
attribute positions and the text `startPos` are each that object for their raw
position. -/
theorem record_location_identity (lib : Gumbo) (e : GumboElement) (iso : Isolate)
    (h : e.original_tag.length ≠ 0) :
    (∀ (node : JsObject) (pos : GumboSourcePosition) (name : String),
      (record_location node pos name).Get name
        = JsValue.object [("line", JsValue.number pos.line),
            ("column", JsValue.number pos.column),
            ("offset", JsValue.number pos.offset)]) ∧
    ((recursive_search lib (GumboNode.element e) iso).1.Get "startPos"
        = (record_location JsObject.New e.start_pos "startPos").Get "startPos" ∧
      (recursive_search lib (GumboNode.element e) iso).1.Get "endPos"
        = (record_location JsObject.New e.end_pos "endPos").Get "endPos") ∧
    (∀ a : GumboAttribute,
      (read_attribute a).Get "nameStart"
        = (record_location JsObject.New a.name_start "nameStart").Get "nameStart" ∧
      (read_attribute a).Get "nameEnd"
        = (record_location JsObject.New a.name_end "nameEnd").Get "nameEnd" ∧
      (read_attribute a).Get "valueStart"
        = (record_location JsObject.New a.value_start "valueStart").Get "valueStart" ∧
      (read_attribute a).Get "valueEnd"
        = (record_location JsObject.New a.value_end "valueEnd").Get "valueEnd") ∧
    (∀ v : GumboText,
      (recursive_search lib (GumboNode.text GumboTextNodeType.GUMBO_NODE_TEXT v) iso).1.Get
        "startPos" = (record_location JsObject.New v.start_pos "startPos").Get "startPos" ∧
      (recursive_search lib (GumboNode.text GumboTextNodeType.GUMBO_NODE_WHITESPACE v) iso).1.Get
        "startPos" = (record_location JsObject.New v.start_pos "startPos").Get "startPos" ∧
      (recursive_search lib (GumboNode.text GumboTextNodeType.GUMBO_NODE_CDATA v) iso).1.Get
        "startPos" = (record_location JsObject.New v.start_pos "startPos").Get "startPos") := by
  refine ⟨?_, ?_, ?_, ?_⟩
  · intro node pos name
    simp only [record_location]
    rw [Get_Set_same]
    simp [JsObject.Set, JsObject.New]
  · simp only [recursive_search]
    rw [read_element_fst_eq lib e iso iso]
    simp [h, JsObject.Get]
  · intro a
    simp [read_attribute, record_location, JsObject.Set, JsObject.Get, JsObject.New]
  · intro v
    simp [recursive_search, read_text, record_location, JsObject.Set, JsObject.Get,
      JsObject.New]

/-- C15 at the `my-widget` element: its `startPos` is line 1, column 1,
offset 0. -/
theorem record_location_identity_witness :
    (recursive_search (sample_gumbo (GumboNode.element sample_my_widget))
        (GumboNode.element sample_my_widget) { scheduled_exception := none }).1.Get "startPos"
      = JsValue.object [("line", JsValue.number 1), ("column", JsValue.number 1),
          ("offset", JsValue.number 0)] :=
  (record_location_identity (sample_gumbo (GumboNode.element sample_my_widget))
    sample_my_widget { scheduled_exception := none } (by decide)).2.1.1

/-- C16: for a node whose kind is none of the six named ones, `recursive_search`
returns a fresh object with no property at all and schedules nothing; as a
child of an element or a document it stays in `childNodes` at its own index,
the array keeping the length of the raw child vector. -/
theorem unrecognised_kind_projection (lib : Gumbo) (raw : Nat) (v : GumboText)
    (iso : Isolate) :
    recursive_search lib (GumboNode.text (GumboTextNodeType.other raw) v) iso = ([], iso) ∧
    (∀ key : String,
      (recursive_search lib (GumboNode.text (GumboTextNodeType.other raw) v) iso).1.Has key
        = false) ∧
    (∀ (before after : List GumboNode) (tag : GumboTag) (tag_namespace : GumboNamespaceEnum)
        (original_tag original_end_tag : String) (start_pos end_pos : GumboSourcePosition)
        (attributes : List GumboAttribute),
      ∃ childNodes : List JsValue,
        (recursive_search lib (GumboNode.element (GumboElement.mk
            (before ++ GumboNode.text (GumboTextNodeType.other raw) v :: after)
            tag tag_namespace original_tag original_end_tag start_pos end_pos attributes))
          iso).1.Get "childNodes" = JsValue.array childNodes ∧
        childNodes.length = before.length + 1 + after.length ∧
        childNodes[before.length]? = some (JsValue.object [])) ∧
    (∀ (before after : List GumboNode) (has_doctype : Bool)
        (name public_identifier system_identifier : String),
      ∃ childNodes : List JsValue,
        (recursive_search lib (GumboNode.document (GumboDocument.mk
            (before ++ GumboNode.text (GumboTextNodeType.other raw) v :: after)
            has_doctype name public_identifier system_identifier))
          iso).1.Get "childNodes" = JsValue.array childNodes ∧
        childNodes.length = before.length + 1 + after.length ∧
        childNodes[before.length]? = some (JsValue.object [])) := by
  refine ⟨rfl, fun _ => rfl, ?_, ?_⟩
  · intro before after tag tag_namespace original_tag original_end_tag start_pos end_pos
      attributes
    refine ⟨(before ++ GumboNode.text (GumboTextNodeType.other raw) v :: after).map
      (fun c => JsValue.object (recursive_search lib c iso).1), ?_, ?_, ?_⟩
    · simp only [recursive_search]
      rw [read_element_fst_eq lib _ iso iso]
      simp [JsObject.Get, GumboElement.children]
    · simp; omega
    · rw [getElem?_map_append_cons]
      rfl
  · intro before after has_doctype name public_identifier system_identifier
    refine ⟨(before ++ GumboNode.text (GumboTextNodeType.other raw) v :: after).map
      (fun c => JsValue.object (recursive_search lib c iso).1), ?_, ?_, ?_⟩
    · simp only [recursive_search]
      rw [read_document_fst_eq lib _ iso iso]
      simp [JsObject.Get, GumboDocument.children]
    · simp; omega
    · rw [getElem?_map_append_cons]
      rfl

/-- C17: a call whose first argument is a string makes exactly three calls on
the raw tree, in this order: the parser hands it out, `recursive_search`
projects it, `gumbo_destroy_output` releases that same tree; this is so
whether or not the projection scheduled the namespace TypeError, so the tree is
obtained once and released once before `Method` returns.  A call whose first
argument is not a string makes none: nothing obtained, nothing released. -/
theorem raw_tree_released_once (lib : Gumbo) (args0 : JsValue) (args1 : JsObject)
    (iso : Isolate) (h : ∀ s : String, args0 ≠ JsValue.string s) :
    (∀ text : String, ∃ options : GumboOptions,
      (Method lib (JsValue.string text) args1 iso).calls
        = [GumboCall.gumbo_parse_with_options options text,
           GumboCall.recursive_search (lib.gumbo_parse_with_options options text),
           GumboCall.gumbo_destroy_output options (lib.gumbo_parse_with_options options text)] ∧
      (Method lib (JsValue.string text) args1 iso).isolate
        = (if (lib.gumbo_parse_with_options options text).document.has_unknown_namespace = true
           then { scheduled_exception := some (JsValue.typeError "Unknown tag namespace") }
           else iso)) ∧
    (∀ text : String,
      ((Method lib (JsValue.string text) args1 iso).calls.filter
          GumboCall.obtains_tree).length = 1 ∧
      ((Method lib (JsValue.string text) args1 iso).calls.filter
          GumboCall.releases_tree).length = 1 ∧
      ((Method lib (JsValue.string text) args1 iso).calls.getLast?).map GumboCall.releases_tree
        = some true) ∧
    (Method lib args0 args1 iso).calls = [] := by
  refine ⟨?_, ?_, ?_⟩
  · intro text
    refine ⟨_, rfl, ?_⟩
    simp only [Method]
    rw [recursive_search_snd lib _ iso]
  · intro text
    simp [Method, GumboCall.obtains_tree, GumboCall.releases_tree]
  · cases args0 <;> first
      | exact absurd rfl (h _)
      | simp [Method]

/-- C17 at the sample document with the out-of-range namespace and at a call
without a string: three calls, the last one the release, in the first; none in
the second. -/
theorem raw_tree_released_once_witness :
    ((Method (sample_gumbo sample_unknown_namespace_document) (JsValue.string "<p>") []
        { scheduled_exception := none }).calls.filter GumboCall.releases_tree).length = 1 ∧
    (Method (sample_gumbo sample_unknown_namespace_document) JsValue.undefined []
        { scheduled_exception := none }).calls = [] :=
  ⟨((raw_tree_released_once (sample_gumbo sample_unknown_namespace_document) JsValue.undefined
      [] { scheduled_exception := none } (fun _ hs => JsValue.noConfusion hs)).2.1 "<p>").2.1,
   (raw_tree_released_once (sample_gumbo sample_unknown_namespace_document) JsValue.undefined
      [] { scheduled_exception := none } (fun _ hs => JsValue.noConfusion hs)).2.2⟩

/-- C18: `recursive_search` is a total function (structural recursion on the
finite raw tree).  On a tree whose namespaces are all HTML, SVG or MATHML it
returns without scheduling an exception, and its output has as many nodes as
the raw tree, the same depth, and, at every path of child indices, a node
exactly where the raw tree has one, with the same number of children (so
leaves map to leaves and text and comment nodes get no children). -/
theorem projection_preserves_shape (lib : Gumbo) (n : GumboNode) (iso : Isolate)
    (h : n.has_unknown_namespace = false) :
    (recursive_search lib n iso).2 = iso ∧
    (JsValue.object (recursive_search lib n iso).1).node_count = n.node_count ∧
    (JsValue.object (recursive_search lib n iso).1).depth = n.depth ∧
    (∀ path : List Nat,
      ((recursive_search lib n iso).1.descendant path).map (fun o => o.childNodes.length) =
        (n.descendant path).map (fun m => m.children.length)) := by
  refine ⟨?_, node_count_projection lib iso n iso, depth_projection lib iso n iso, ?_⟩
  · rw [recursive_search_snd lib n iso]
    simp [h]
  · intro path
    rw [descendant_projection lib iso path n iso]
    cases n.descendant path with
    | none => rfl
    | some m =>
      simp only [Option.map_some', Option.some.injEq]
      rw [projection_childNodes lib m iso iso, List.length_map]

/-- C18 at the sample document: 5 nodes, depth 4, no exception scheduled. -/
theorem projection_preserves_shape_witness :
    sample_document.has_unknown_namespace = false ∧
    (recursive_search (sample_gumbo sample_document) sample_document
      { scheduled_exception := none }).2.scheduled_exception = none ∧
    (JsValue.object (recursive_search (sample_gumbo sample_document) sample_document
      { scheduled_exception := none }).1).node_count = 5 ∧
    (JsValue.object (recursive_search (sample_gumbo sample_document) sample_document
      { scheduled_exception := none }).1).depth = 4 :=
  ⟨rfl,
   congrArg Isolate.scheduled_exception
     (projection_preserves_shape (sample_gumbo sample_document) sample_document
       { scheduled_exception := none } rfl).1,
   (projection_preserves_shape (sample_gumbo sample_document) sample_document
       { scheduled_exception := none } rfl).2.1,
   (projection_preserves_shape (sample_gumbo sample_document) sample_document
       { scheduled_exception := none } rfl).2.2.1⟩

end NodeGumbo
